import Mathlib

/-!
Verification of the seat-inventory reservation engine of the Dreamline bus
booking application (Django app `website_application`).

The embedding below is a shallow model of the relevant parts of
`website_application/models.py` and `website_application/views.py`:

* the Django cache used as the seat-lock store (keys `seat_lock_<id>`,
  values are session keys, entries carry an absolute expiry instant;
  `cache.get` returns nothing once the expiry has passed, which models
  lazy expiry);
* the database tables `Trip`, `Seat`, `RouteStop`, `Booking`,
  `SeatBooking`, `Payment` as lists of rows;
* the view functions `api_get_seats`, `api_lock_seat`, `api_unlock_seat`,
  `api_create_booking`, `cancel_booking`, `cancel_trip` and the model
  method `Seat.get_fare`.

`api_create_booking` performs its durable writes one ORM call at a time
with no enclosing transaction (Django autocommit; the view does not use
`transaction.atomic`).  This is modelled by an explicit list of write
operations folded over the state, together with an optional injected
failure point `crashAfter`: `crashAfter = some k` means execution raises
after the first `k` operations, leaving exactly their effects behind.

Session tokens are modelled as strings (the views that matter create a
session when one is absent, so the caller always has a non-empty key).
Money amounts are modelled as integers.
-/

/-- A lock-store entry: owning session key and absolute expiry instant. -/
structure CacheEntry where
  owner : String
  expiry : Nat
  deriving Repr, DecidableEq

/-- The Django cache restricted to the `seat_lock_<seat id>` keys. -/
def Cache : Type := Nat → Option CacheEntry

/-- `cache.get` at instant `now`: an entry whose expiry has passed is
absent (lazy expiry, as in the Django cache backends). -/
def cacheGet (c : Cache) (now : Nat) (k : Nat) : Option String :=
  match c k with
  | some e => if now < e.expiry then some e.owner else none
  | none => none

/-- `cache.set(key, owner, ttl)` at instant `now`. -/
def cacheSet (c : Cache) (k : Nat) (owner : String) (now ttl : Nat) : Cache :=
  fun k' => if k' = k then some ⟨owner, now + ttl⟩ else c k'

/-- `cache.delete(key)`. -/
def cacheDel (c : Cache) (k : Nat) : Cache :=
  fun k' => if k' = k then none else c k'

/-- The empty cache. -/
def emptyCache : Cache := fun _ => none

/-- Row of the `Trip` table (the fields the reservation core reads). -/
structure Trip where
  id : Nat
  routeId : Nat
  base_fare_vip : Int
  base_fare_business : Int
  base_fare_normal : Int
  status : String
  deriving Repr, DecidableEq

/-- Row of the `Seat` table. -/
structure Seat where
  id : Nat
  tripId : Nat
  seat_number : String
  seat_class : String
  is_available : Bool
  deriving Repr, DecidableEq

/-- Row of the `RouteStop` table (the fields the booking view reads). -/
structure RouteStop where
  id : Nat
  routeId : Nat
  boarding_pointId : Nat
  deriving Repr, DecidableEq

/-- Customer contact fields supplied to `api_create_booking`. -/
structure Customer where
  full_name : String
  id_number : String
  email : String
  phone : String
  deriving Repr, DecidableEq

/-- Row of the `Booking` table. -/
structure Booking where
  id : Nat
  booking_reference : String
  tripId : Nat
  customer : Customer
  boarding_pointId : Nat
  dropping_pointId : Nat
  total_amount : Int
  status : String
  deriving Repr, DecidableEq

/-- Row of the `SeatBooking` table. -/
structure SeatBooking where
  bookingId : Nat
  seatId : Nat
  fare : Int
  deriving Repr, DecidableEq

/-- Row of the `Payment` table (the fields the booking view writes). -/
structure Payment where
  bookingId : Nat
  transaction_id : String
  amount : Int
  status : String
  deriving Repr, DecidableEq

/-- The durable database state. -/
structure DB where
  trips : List Trip
  seats : List Seat
  routeStops : List RouteStop
  bookings : List Booking
  seatBookings : List SeatBooking
  payments : List Payment
  deriving Repr, DecidableEq

/-- `Trip.objects.get(id=...)` (primary-key lookup). -/
def findTrip (db : DB) (tid : Nat) : Option Trip :=
  db.trips.find? (fun t => t.id = tid)

/-- `Seat.objects.get(id=...)`. -/
def findSeat (db : DB) (sid : Nat) : Option Seat :=
  db.seats.find? (fun s => s.id = sid)

/-- `RouteStop.objects.get(id=...)`. -/
def findRouteStop (db : DB) (rid : Nat) : Option RouteStop :=
  db.routeStops.find? (fun r => r.id = rid)

/-- `Booking.objects.get(pk=...)`. -/
def findBooking (db : DB) (bid : Nat) : Option Booking :=
  db.bookings.find? (fun b => b.id = bid)

/-- `Seat.get_fare` from `models.py`: vip and business map to their
tiers and every other class falls through to the normal fare. -/
def Seat.get_fare (trip : Trip) (seat : Seat) : Int :=
  if seat.seat_class = "vip" then trip.base_fare_vip
  else if seat.seat_class = "business" then trip.base_fare_business
  else trip.base_fare_normal

/-- `seat.get_fare()` as called in the views: the fare table is read from
the trip the seat belongs to (`self.trip`).  The foreign key is non-null
in the schema, so the `none` branch is unreachable on well-formed data. -/
def seatFareIn (db : DB) (s : Seat) : Int :=
  match findTrip db s.tripId with
  | some t => Seat.get_fare t s
  | none => 0

/-- One entry of the seat list returned by `api_get_seats`. -/
structure SeatView where
  id : Nat
  is_available : Bool
  is_locked : Bool
  fare : Int
  deriving Repr, DecidableEq

/-- `api_get_seats` (views.py 160-201): for each seat of the trip the
reported `is_locked` is whether a live cache entry exists now, and the
reported `is_available` is the durable flag conjoined with not locked.
Returns `none` when the trip id is not found (HTTP 404). -/
def api_get_seats (db : DB) (c : Cache) (now : Nat) (trip_id : Nat) :
    Option (List SeatView) :=
  (findTrip db trip_id).map (fun _ =>
    (db.seats.filter (fun s => s.tripId = trip_id)).map (fun s =>
      let locked := (cacheGet c now s.id).isSome
      ⟨s.id, s.is_available && !locked, locked, seatFareIn db s⟩))

/-- Result of `api_lock_seat`. -/
inductive LockResult where
  /-- seat id not found: HTTP 404. -/
  | notFound : LockResult
  /-- HTTP 400, body `Seat is already booked`. -/
  | alreadyBooked : LockResult
  /-- HTTP 400, body `Seat is currently being selected by another user`. -/
  | heldByOther : LockResult
  /-- HTTP 200, body carries `expires_in`. -/
  | ok (expires_in : Nat) : LockResult
  deriving Repr, DecidableEq

/-- `api_lock_seat` (views.py 204-243).  Mirrors the Python: reject if the
seat row is not durably available; reject if a live lock exists whose
owner is truthy and differs from the caller; otherwise unconditionally
`cache.set(lock_key, session_id, 120)`, which stamps a fresh expiry of
`now + 120` even when the caller already owned the lock. -/
def api_lock_seat (db : DB) (c : Cache) (now : Nat) (seat_id : Nat)
    (session_id : String) : LockResult × Cache :=
  match findSeat db seat_id with
  | none => (.notFound, c)
  | some seat =>
    if seat.is_available = false then (.alreadyBooked, c)
    else
      match cacheGet c now seat_id with
      | some owner =>
        if owner ≠ "" ∧ owner ≠ session_id then (.heldByOther, c)
        else (.ok 120, cacheSet c seat_id session_id now 120)
      | none => (.ok 120, cacheSet c seat_id session_id now 120)

/-- JSON response of `api_unlock_seat`: success flag, HTTP status and
optional error message. -/
structure UnlockResponse where
  success : Bool
  status : Nat
  error : Option String
  deriving Repr, DecidableEq

/-- `api_unlock_seat` (views.py 246-267): deletes the lock and answers
HTTP 200 only when the live entry is owned by the caller; in every other
case it leaves the cache untouched and answers HTTP 400 with the error
message `Seat not locked by this session`. -/
def api_unlock_seat (c : Cache) (now : Nat) (seat_id : Nat)
    (session_id : String) : UnlockResponse × Cache :=
  match cacheGet c now seat_id with
  | some owner =>
    if owner = session_id then (⟨true, 200, none⟩, cacheDel c seat_id)
    else (⟨false, 400, some "Seat not locked by this session"⟩, c)
  | none => (⟨false, 400, some "Seat not locked by this session"⟩, c)

/-- One durable-or-cache write performed by `api_create_booking` after its
validation phase.  Each corresponds to a single ORM call (or cache call)
in the Python; there is no enclosing transaction, so each takes effect
immediately and independently (Django autocommit). -/
inductive Op where
  | insertBooking (b : Booking) : Op
  | insertSeatBooking (sb : SeatBooking) : Op
  | setSeatUnavailable (sid : Nat) : Op
  | cacheDelete (sid : Nat) : Op
  | insertPayment (p : Payment) : Op
  deriving Repr, DecidableEq

/-- Effect of a single write on the combined state. -/
def applyOp (st : DB × Cache) (op : Op) : DB × Cache :=
  match op with
  | .insertBooking b => ({ st.1 with bookings := st.1.bookings ++ [b] }, st.2)
  | .insertSeatBooking sb =>
      ({ st.1 with seatBookings := st.1.seatBookings ++ [sb] }, st.2)
  | .setSeatUnavailable sid =>
      ({ st.1 with seats := st.1.seats.map (fun s =>
          if s.id = sid then { s with is_available := false } else s) }, st.2)
  | .cacheDelete sid => (st.1, cacheDel st.2 sid)
  | .insertPayment p => ({ st.1 with payments := st.1.payments ++ [p] }, st.2)

/-- Run a prefix of the write sequence. -/
def runOps (st : DB × Cache) (ops : List Op) : DB × Cache :=
  ops.foldl applyOp st

/-- The per-seat loop body of `api_create_booking` (views.py 462-475):
create the `SeatBooking`, flip the seat flag, drop the lock. -/
def seatLoopOps (db0 : DB) (bid : Nat) (seats : List Seat) : List Op :=
  seats.flatMap (fun s =>
    [.insertSeatBooking ⟨bid, s.id, seatFareIn db0 s⟩,
     .setSeatUnavailable s.id,
     .cacheDelete s.id])

/-- The full write sequence of a commit that reaches the creation phase. -/
def commitOps (db0 : DB) (nb : Booking) (seats : List Seat) (pay : Payment) :
    List Op :=
  .insertBooking nb :: (seatLoopOps db0 nb.id seats ++ [.insertPayment pay])

/-- Primary key the database hands the new `Booking` row (autoincrement). -/
def freshBookingId (db : DB) : Nat :=
  (db.bookings.map (fun b => b.id)).foldr max 0 + 1

/-- Outcome of `api_create_booking`. -/
inductive BookingResult where
  /-- HTTP 400, `At least one seat must be selected`. -/
  | emptySeatList : BookingResult
  /-- HTTP 404 from `get_object_or_404(Trip, ...)`. -/
  | tripNotFound : BookingResult
  /-- HTTP 400, `Seat locks expired or invalid for seats: ...`,
  naming the seats whose lock is missing or foreign. -/
  | locksInvalid (offending : List Nat) : BookingResult
  /-- HTTP 400, `Some seats are no longer available: ...`. -/
  | seatsUnavailable (unavailable : List Nat) : BookingResult
  /-- HTTP 400, `Invalid boarding or dropping point`. -/
  | invalidPoint : BookingResult
  /-- an exception was raised mid-way (HTTP 500 path); earlier
  autocommitted writes remain. -/
  | crashed : BookingResult
  /-- HTTP 200 with the booking reference and total. -/
  | ok (booking_reference : String) (total : Int) : BookingResult
  deriving Repr, DecidableEq

/-- Step 1 of the commit (views.py 404-415): the requested seats whose
lock is missing, expired or owned by a different session. -/
def unlockedSeats (c : Cache) (now : Nat) (session_id : String)
    (seat_ids : List Nat) : List Nat :=
  seat_ids.filter (fun sid => decide (cacheGet c now sid ≠ some session_id))

/-- Step 2 of the commit (views.py 423): the queryset
`Seat.objects.filter(id__in=seat_ids, is_available=True)`.  Note the
absence of any trip filter. -/
def availableSeats (db : DB) (seat_ids : List Nat) : List Seat :=
  db.seats.filter (fun s => decide (s.id ∈ seat_ids ∧ s.is_available = true))

/-- Step 3 of the commit (views.py 448-497): run the write sequence,
optionally failing after the first `k` writes.  Each write autocommits,
so on an injected failure the writes already made remain. -/
def creationPhase (db : DB) (c : Cache) (nb : Booking) (seats : List Seat)
    (pay : Payment) (fresh_ref : String) (total : Int)
    (crashAfter : Option Nat) : BookingResult × DB × Cache :=
  let ops := commitOps db nb seats pay
  match crashAfter with
  | some k =>
    if k < ops.length then
      let st := runOps (db, c) (ops.take k)
      (.crashed, st.1, st.2)
    else
      let st := runOps (db, c) ops
      (.ok fresh_ref total, st.1, st.2)
  | none =>
    let st := runOps (db, c) ops
    (.ok fresh_ref total, st.1, st.2)

/-- `api_create_booking` (views.py 348-510), from the point where the
request fields have been parsed.  `crashAfter = some k` injects a failure
after the first `k` write operations of the creation phase; `none` runs
to completion.  The validation phase performs no writes. -/
def api_create_booking (db : DB) (c : Cache) (now : Nat) (session_id : String)
    (trip_id : Nat) (seat_ids : List Nat)
    (boarding_point_id dropping_point_id : Nat) (customer : Customer)
    (fresh_ref : String) (crashAfter : Option Nat) :
    BookingResult × DB × Cache :=
  if seat_ids.isEmpty then (.emptySeatList, db, c)
  else
    match findTrip db trip_id with
    | none => (.tripNotFound, db, c)
    | some _ =>
      let unlocked := unlockedSeats c now session_id seat_ids
      if unlocked.isEmpty then
        let seats := availableSeats db seat_ids
        if seats.length = seat_ids.length then
          match findRouteStop db boarding_point_id,
                findRouteStop db dropping_point_id with
          | some bstop, some dstop =>
            let total := (seats.map (seatFareIn db)).sum
            let nb : Booking :=
              ⟨freshBookingId db, fresh_ref, trip_id, customer,
               bstop.boarding_pointId, dstop.boarding_pointId, total, "pending"⟩
            let pay : Payment := ⟨nb.id, "TXN" ++ fresh_ref, total, "initiated"⟩
            creationPhase db c nb seats pay fresh_ref total crashAfter
          | _, _ => (.invalidPoint, db, c)
        else
          (.seatsUnavailable (seat_ids.filter
            (fun sid => decide (sid ∉ seats.map (fun s => s.id)))), db, c)
      else (.locksInvalid unlocked, db, c)

/-- Outcome of the admin cancellation views: they redirect either way. -/
inductive CancelResult where
  | notFound : CancelResult
  | redirect (booking_id : Nat) : CancelResult
  deriving Repr, DecidableEq

/-- `cancel_booking` (views.py 2128-2145): on POST, if the booking status
is neither `cancelled` nor `completed`, set it to `cancelled` and mark
every seat of its `SeatBooking` rows available again; in every other case
change nothing.  Both branches answer with the same redirect to the
booking detail page. -/
def cancel_booking (db : DB) (booking_id : Nat) (isPost : Bool) :
    CancelResult × DB :=
  match findBooking db booking_id with
  | none => (.notFound, db)
  | some b =>
    if isPost = false then (.redirect booking_id, db)
    else if b.status = "cancelled" ∨ b.status = "completed" then
      (.redirect booking_id, db)
    else
      let db1 := { db with bookings := db.bookings.map (fun bb : Booking =>
        if bb.id = booking_id then { bb with status := "cancelled" } else bb) }
      let sbs := db1.seatBookings.filter
        (fun sb : SeatBooking => decide (sb.bookingId = booking_id))
      let db2 := { db1 with seats := db1.seats.map (fun s : Seat =>
        if sbs.any (fun sb : SeatBooking => decide (sb.seatId = s.id)) then
          { s with is_available := true }
        else s) }
      (.redirect booking_id, db2)

/-- Outcome of `cancel_trip`. -/
inductive TripCancelResult where
  | notFound : TripCancelResult
  /-- message `Cannot cancel this trip`. -/
  | cannotCancel : TripCancelResult
  /-- message `Trip cancelled. N booking(s) were cancelled.` -/
  | done (cancelled_count : Nat) : TripCancelResult
  deriving Repr, DecidableEq

/-- `cancel_trip` (views.py 1528-1547): unless the trip is already
completed or cancelled, bulk-set every `pending` or `confirmed` booking
of the trip to `cancelled` and set the trip status to `cancelled`.  Seat
rows are not touched. -/
def cancel_trip (db : DB) (trip_id : Nat) : TripCancelResult × DB :=
  match findTrip db trip_id with
  | none => (.notFound, db)
  | some trip =>
    if trip.status = "completed" ∨ trip.status = "cancelled" then
      (.cannotCancel, db)
    else
      let toCancel := db.bookings.filter (fun b =>
        decide (b.tripId = trip_id ∧ (b.status = "pending" ∨ b.status = "confirmed")))
      let db1 := { db with
        bookings := db.bookings.map (fun b : Booking =>
          if b.tripId = trip_id ∧ (b.status = "pending" ∨ b.status = "confirmed")
          then { b with status := "cancelled" } else b),
        trips := db.trips.map (fun t : Trip =>
          if t.id = trip_id then { t with status := "cancelled" } else t) }
      (.done toCancel.length, db1)

/-- A `SeatBooking` confirms a sale while its owning booking is not
cancelled. -/
def isActiveSB (db : DB) (sb : SeatBooking) : Bool :=
  match findBooking db sb.bookingId with
  | some b => decide (b.status ≠ "cancelled")
  | none => false

/-- Number of confirming (non-cancelled) `SeatBooking` rows of a seat. -/
def activeCount (db : DB) (sid : Nat) : Nat :=
  (db.seatBookings.filter
    (fun sb => decide (sb.seatId = sid) && isActiveSB db sb)).length

/-- The spec invariant as stated: every seat with the durable flag sold
(`is_available = false`) has exactly one confirming `SeatBooking` under a
booking not in `cancelled`. -/
def seatInvWeak (db : DB) : Bool :=
  db.seats.all (fun s =>
    s.is_available || decide (activeCount db s.id = 1))

/-- The inductive strengthening: a sold seat has exactly one confirming
`SeatBooking` and an available seat has none. -/
def seatInv (db : DB) : Bool :=
  db.seats.all (fun s =>
    decide (activeCount db s.id = if s.is_available then 0 else 1))

/-- Referential well-formedness: distinct seat ids, distinct booking ids,
and every `SeatBooking` points to an existing booking (the schema's
primary keys and foreign key). -/
def wfDB (db : DB) : Prop :=
  (db.seats.map (fun s => s.id)).Nodup ∧
  (db.bookings.map (fun b => b.id)).Nodup ∧
  (∀ sb ∈ db.seatBookings, ∃ b ∈ db.bookings, b.id = sb.bookingId)

instance (db : DB) : Decidable (wfDB db) := by
  unfold wfDB; infer_instance

/-- Bulk form of the seat flips performed by the commit loop. -/
def flipSeats (l : List Seat) (ids : List Nat) : List Seat :=
  l.map (fun s => if s.id ∈ ids then { s with is_available := false } else s)

/-- Bulk form of the lock deletions performed by the commit loop. -/
def delAll (c : Cache) (ids : List Nat) : Cache :=
  fun k => if k ∈ ids then none else c k

/-- The outcomes of `api_create_booking` produced before any write:
input checks, the lock precondition, the availability re-check and the
boarding-point lookup. -/
def validationFailure : BookingResult → Bool
  | .emptySeatList => true
  | .tripNotFound => true
  | .locksInvalid _ => true
  | .seatsUnavailable _ => true
  | .invalidPoint => true
  | .crashed => false
  | .ok _ _ => false

/-! Concrete fixtures used by witnesses and counterexamples. -/

/-- A scheduled trip on route 1 with fare table (100, 80, 50). -/
def sampleTrip1 : Trip := ⟨1, 1, 100, 80, 50, "scheduled"⟩

/-- A scheduled trip on route 2 with fare table (200, 150, 90). -/
def sampleTrip2 : Trip := ⟨2, 2, 200, 150, 90, "scheduled"⟩

/-- An available vip seat of trip 1. -/
def seatV : Seat := ⟨1, 1, "1A", "vip", true⟩

/-- An available normal seat of trip 2. -/
def seatN2 : Seat := ⟨2, 2, "1A", "normal", true⟩

/-- A seat whose class is outside the three configured tiers. -/
def seatEconomy : Seat := ⟨3, 1, "2A", "economy", true⟩

/-- Seat 1 of trip 1 with the durable flag sold. -/
def seatSold : Seat := ⟨1, 1, "1A", "vip", false⟩

/-- A stop of route 1. -/
def stop1 : RouteStop := ⟨1, 1, 10⟩

/-- A stop of route 2 (not on the route of trip 1). -/
def stop9 : RouteStop := ⟨9, 2, 20⟩

/-- Customer fields for the fixtures. -/
def sampleCustomer : Customer := ⟨"Jane Doe", "12345678", "jane@example.com", "0700000000"⟩

/-- Two trips, their two seats, both free; no bookings yet. -/
def sampleDB : DB :=
  ⟨[sampleTrip1, sampleTrip2], [seatV, seatN2], [stop1, stop9], [], [], []⟩

/-- Session A holds seat 1 until instant 120. -/
def lockA : Cache := fun k => if k = 1 then some ⟨"A", 120⟩ else none

/-- Session A holds seat 2 until instant 120. -/
def lockA2 : Cache := fun k => if k = 2 then some ⟨"A", 120⟩ else none

/-- Seat 1 held by session B, seat 2 held by session A. -/
def lockMix : Cache :=
  fun k => if k = 1 then some ⟨"B", 120⟩
           else if k = 2 then some ⟨"A", 120⟩ else none

/-- A pending booking for seat 1 of trip 1. -/
def pendingBooking : Booking := ⟨1, "BK1", 1, sampleCustomer, 10, 10, 100, "pending"⟩

/-- The same booking already completed. -/
def completedBooking : Booking := ⟨1, "BK1", 1, sampleCustomer, 10, 10, 100, "completed"⟩

/-- The `SeatBooking` row tying booking 1 to seat 1. -/
def sb1 : SeatBooking := ⟨1, 1, 100⟩

/-- Seat 1 sold and confirmed by pending booking 1. -/
def soldDB : DB := ⟨[sampleTrip1], [seatSold], [stop1], [pendingBooking], [sb1], []⟩

/-- Seat 1 sold under booking 1 which is already completed. -/
def completedDB : DB :=
  ⟨[sampleTrip1], [seatSold], [stop1], [completedBooking], [sb1], []⟩

/-- The same booking already cancelled. -/
def cancelledBooking : Booking :=
  ⟨1, "BK1", 1, sampleCustomer, 10, 10, 100, "cancelled"⟩

/-- Seat 1 still flagged sold while booking 1 is already cancelled. -/
def cancelledDB : DB :=
  ⟨[sampleTrip1], [seatSold], [stop1], [cancelledBooking], [sb1], []⟩

/-- The cache after session A first holds seat 1 at instant 0. -/
def holdOnce : Cache := (api_lock_seat sampleDB emptyCache 0 1 "A").2

/-- The cache after session A re-holds the same seat at instant 100. -/
def holdTwice : Cache := (api_lock_seat sampleDB holdOnce 100 1 "A").2

/-! Helper lemmas. -/

theorem cacheGet_cacheDel_self (c : Cache) (now k : Nat) :
    cacheGet (cacheDel c k) now k = none := by
  simp [cacheGet, cacheDel]

theorem cacheGet_isSome_iff (c : Cache) (now k : Nat) :
    (cacheGet c now k).isSome = true ↔ ∃ e, c k = some e ∧ now < e.expiry := by
  unfold cacheGet
  rcases h : c k with _ | e
  · simp
  · by_cases hlt : now < e.expiry <;> simp [hlt]

/-- `creationPhase` only ever reports a crash or a success. -/
theorem creationPhase_not_validation (db : DB) (c : Cache) (nb : Booking)
    (seats : List Seat) (pay : Payment) (ref : String) (total : Int)
    (crashAfter : Option Nat) :
    validationFailure
      (creationPhase db c nb seats pay ref total crashAfter).1 = false := by
  unfold creationPhase
  rcases crashAfter with _ | k
  · rfl
  · by_cases hk : k < (commitOps db nb seats pay).length <;>
      simp [hk, validationFailure]

theorem runOps_append (st : DB × Cache) (l1 l2 : List Op) :
    runOps st (l1 ++ l2) = runOps (runOps st l1) l2 :=
  List.foldl_append _ _ _ _

theorem flipSeats_nil (l : List Seat) : flipSeats l [] = l := by
  simp [flipSeats]

theorem delAll_nil (c : Cache) : delAll c [] = c := by
  funext k; simp [delAll]

theorem flipSeats_cons (l : List Seat) (x : Nat) (ids : List Nat) :
    flipSeats (l.map (fun s =>
      if s.id = x then { s with is_available := false } else s)) ids
      = flipSeats l (x :: ids) := by
  unfold flipSeats
  rw [List.map_map]
  apply List.map_congr_left
  intro s _
  by_cases h : s.id = x
  · by_cases h2 : s.id ∈ ids <;>
      simp [Function.comp, h, h2, List.mem_cons]
  · by_cases h2 : s.id ∈ ids <;>
      simp [Function.comp, h, h2, List.mem_cons]

theorem delAll_cons (c : Cache) (x : Nat) (ids : List Nat) :
    delAll (cacheDel c x) ids = delAll c (x :: ids) := by
  funext k
  by_cases h : k ∈ ids
  · simp [delAll, h, List.mem_cons]
  · by_cases h2 : k = x <;> simp [delAll, cacheDel, h, h2, List.mem_cons]

theorem runOps_seatLoop (db0 : DB) (bid : Nat) (seats : List Seat) :
    ∀ (db : DB) (c : Cache),
    runOps (db, c) (seatLoopOps db0 bid seats) =
      ({ db with
          seatBookings := db.seatBookings ++
            seats.map (fun s => ⟨bid, s.id, seatFareIn db0 s⟩),
          seats := flipSeats db.seats (seats.map (fun s => s.id)) },
       delAll c (seats.map (fun s => s.id))) := by
  induction seats with
  | nil =>
    intro db c
    simp [seatLoopOps, runOps, flipSeats_nil, delAll_nil]
  | cons s rest ih =>
    intro db c
    have hsplit : seatLoopOps db0 bid (s :: rest) =
        Op.insertSeatBooking ⟨bid, s.id, seatFareIn db0 s⟩ ::
        Op.setSeatUnavailable s.id :: Op.cacheDelete s.id ::
        seatLoopOps db0 bid rest := by
      simp [seatLoopOps]
    rw [hsplit]
    show runOps
      (applyOp (applyOp (applyOp (db, c)
        (Op.insertSeatBooking ⟨bid, s.id, seatFareIn db0 s⟩))
        (Op.setSeatUnavailable s.id)) (Op.cacheDelete s.id))
      (seatLoopOps db0 bid rest) = _
    simp only [applyOp]
    rw [ih]
    simp only [List.map_cons]
    rw [flipSeats_cons, delAll_cons]
    simp [List.append_assoc]

theorem runOps_commitOps (db0 db : DB) (c : Cache) (nb : Booking)
    (seats : List Seat) (pay : Payment) :
    runOps (db, c) (commitOps db0 nb seats pay) =
      ({ db with
          bookings := db.bookings ++ [nb],
          seatBookings := db.seatBookings ++
            seats.map (fun s => ⟨nb.id, s.id, seatFareIn db0 s⟩),
          seats := flipSeats db.seats (seats.map (fun s => s.id)),
          payments := db.payments ++ [pay] },
       delAll c (seats.map (fun s => s.id))) := by
  unfold commitOps
  show runOps (applyOp (db, c) (Op.insertBooking nb))
    (seatLoopOps db0 nb.id seats ++ [Op.insertPayment pay]) = _
  rw [runOps_append]
  simp only [applyOp]
  rw [runOps_seatLoop]
  simp [runOps, applyOp]

/-- The success path of `api_create_booking` with no injected failure:
all guards pass, so the full write sequence runs and yields exactly the
new booking, its seat bookings, the flipped seats, the payment row and
the cleared locks. -/
theorem create_booking_success_state (db : DB) (c : Cache) (now : Nat)
    (sid : String) (trip_id : Nat) (seat_ids : List Nat) (bp dp : Nat)
    (cust : Customer) (ref : String) (t : Trip) (bstop dstop : RouteStop)
    (seatsF : List Seat)
    (ht : findTrip db trip_id = some t)
    (hne : seat_ids ≠ [])
    (hlocks : (unlockedSeats c now sid seat_ids).isEmpty = true)
    (hseats : availableSeats db seat_ids = seatsF)
    (hlen : seatsF.length = seat_ids.length)
    (hbp : findRouteStop db bp = some bstop)
    (hdp : findRouteStop db dp = some dstop) :
    api_create_booking db c now sid trip_id seat_ids bp dp cust ref none =
      (.ok ref ((seatsF.map (seatFareIn db)).sum),
       { db with
         bookings := db.bookings ++
           [⟨freshBookingId db, ref, trip_id, cust, bstop.boarding_pointId,
             dstop.boarding_pointId, (seatsF.map (seatFareIn db)).sum,
             "pending"⟩],
         seatBookings := db.seatBookings ++
           seatsF.map (fun s => ⟨freshBookingId db, s.id, seatFareIn db s⟩),
         seats := flipSeats db.seats (seatsF.map (fun s => s.id)),
         payments := db.payments ++
           [⟨freshBookingId db, "TXN" ++ ref,
             (seatsF.map (seatFareIn db)).sum, "initiated"⟩] },
       delAll c (seatsF.map (fun s => s.id))) := by
  have h1 : seat_ids.isEmpty = false := by
    cases seat_ids with
    | nil => exact absurd rfl hne
    | cons a l => rfl
  have hlen2 : (availableSeats db seat_ids).length = seat_ids.length := by
    rw [hseats]; exact hlen
  simp only [api_create_booking, h1, ht, hlocks, hseats, hlen2, hlen,
    Bool.false_eq_true, if_false, if_true, eq_self_iff_true,
    hbp, hdp, creationPhase]
  rw [runOps_commitOps]

/-! Claim theorems. -/

/-- C8 (amended): `Seat.get_fare` maps class `vip` to the owning Trip
vip fare and class `business` to the business fare, and every other
class — including a class outside the three configured tiers — falls
through to `base_fare_normal`; an unknown class is not detected and does
not raise a data-integrity error. -/
theorem C8_amended_fare_mapping (t : Trip) (s : Seat) :
    (s.seat_class = "vip" → Seat.get_fare t s = t.base_fare_vip) ∧
    (s.seat_class = "business" → Seat.get_fare t s = t.base_fare_business) ∧
    (s.seat_class ≠ "vip" → s.seat_class ≠ "business" →
      Seat.get_fare t s = t.base_fare_normal) := by
  refine ⟨fun h => by simp [Seat.get_fare, h],
          fun h => by simp [Seat.get_fare, h],
          fun h1 h2 => by simp [Seat.get_fare, h1, h2]⟩

/-- C8 witness: a seat of class outside the three tiers receives the
normal fare via the amended mapping. -/
theorem C8_witness :
    Seat.get_fare sampleTrip1 seatEconomy = sampleTrip1.base_fare_normal :=
  (C8_amended_fare_mapping sampleTrip1 seatEconomy).2.2
    (by decide) (by decide)

/-- C8 counterexample: the class `economy` is none of the three tiers,
yet `get_fare` produces the normal-tier fare 50 instead of failing with
a data-integrity error. -/
theorem C8_counterexample :
    seatEconomy.seat_class ≠ "vip" ∧
    seatEconomy.seat_class ≠ "business" ∧
    seatEconomy.seat_class ≠ "normal" ∧
    Seat.get_fare sampleTrip1 seatEconomy = 50 := by
  decide

/-- C6 (amended): when the lock is absent or owned by another session,
`api_unlock_seat` does not raise but answers HTTP 400 with success
`false` and the error message `Seat not locked by this session` — it
reports an error at the HTTP level rather than failing silently — and it
leaves the cache exactly unchanged, so it never removes a lock owned by
a different session; releasing a lock the caller owns removes only that
entry, and a second release after any release changes nothing further. -/
theorem C6_amended_release_behavior (c : Cache) (now seat_id : Nat)
    (sid : String) :
    (cacheGet c now seat_id ≠ some sid →
      api_unlock_seat c now seat_id sid =
        (⟨false, 400, some "Seat not locked by this session"⟩, c)) ∧
    (cacheGet c now seat_id = some sid →
      api_unlock_seat c now seat_id sid = (⟨true, 200, none⟩, cacheDel c seat_id)) ∧
    (api_unlock_seat (api_unlock_seat c now seat_id sid).2 now seat_id sid).2 =
      (api_unlock_seat c now seat_id sid).2 := by
  rcases h : cacheGet c now seat_id with _ | o
  · refine ⟨fun _ => by simp [api_unlock_seat, h], fun hc => by simp [h] at hc, ?_⟩
    simp [api_unlock_seat, h]
  · by_cases ho : o = sid
    · subst ho
      refine ⟨fun hne => absurd rfl hne, fun _ => by simp [api_unlock_seat, h], ?_⟩
      simp [api_unlock_seat, h, cacheGet_cacheDel_self]
    · refine ⟨fun _ => by simp [api_unlock_seat, h, ho], fun hc => ?_, ?_⟩
      · exact absurd (Option.some_injective _ hc) ho
      · simp [api_unlock_seat, h, ho]

/-- C6 witness: releasing an absent lock answers with the 400 error
response and leaves the empty cache untouched. -/
theorem C6_witness :
    api_unlock_seat emptyCache 0 1 "A" =
      (⟨false, 400, some "Seat not locked by this session"⟩, emptyCache) :=
  (C6_amended_release_behavior emptyCache 0 1 "A").1 (by decide)

/-- C6 counterexample: with no lock present the release does not fail
silently — it reports an error: HTTP status 400 and the error message
`Seat not locked by this session`, exactly as the lock-conflict error
paths do. -/
theorem C6_counterexample :
    (api_unlock_seat emptyCache 0 1 "A").1.success = false ∧
    (api_unlock_seat emptyCache 0 1 "A").1.status = 400 ∧
    (api_unlock_seat emptyCache 0 1 "A").1.error =
      some "Seat not locked by this session" := by
  decide

/-- C2 (amended): for every hold request on an existing seat,
`api_lock_seat` fails with the already-booked error when the durable
flag is sold; fails with the held-by-other error when a live lock with a
different (non-empty) owner exists; and otherwise — first hold, or
re-hold by the same owner — succeeds with an explicit 120-second expiry
and stamps the lock with expiry `now + 120`.  A re-hold by the same
owner therefore RESETS the TTL to a fresh 120 seconds from the re-hold
instant (sliding renewal), rather than keeping the lifetime fixed from
the first hold. -/
theorem C2_amended_hold_behavior (db : DB) (c : Cache) (now seat_id : Nat)
    (sid : String) (seat : Seat) (hs : findSeat db seat_id = some seat) :
    (seat.is_available = false →
      api_lock_seat db c now seat_id sid = (.alreadyBooked, c)) ∧
    (∀ o, seat.is_available = true → cacheGet c now seat_id = some o →
      o ≠ "" → o ≠ sid →
      api_lock_seat db c now seat_id sid = (.heldByOther, c)) ∧
    (seat.is_available = true →
      (cacheGet c now seat_id = none ∨ cacheGet c now seat_id = some sid) →
      api_lock_seat db c now seat_id sid =
        (.ok 120, cacheSet c seat_id sid now 120) ∧
      (api_lock_seat db c now seat_id sid).2 seat_id = some ⟨sid, now + 120⟩) := by
  refine ⟨fun hsold => ?_, fun o hav hc ho1 ho2 => ?_, fun hav hc => ?_⟩
  · simp [api_lock_seat, hs, hsold]
  · simp [api_lock_seat, hs, hav, hc, ho1, ho2]
  · rcases hc with hc | hc
    · constructor
      · simp [api_lock_seat, hs, hav, hc]
      · simp [api_lock_seat, hs, hav, hc, cacheSet]
    · constructor
      · simp [api_lock_seat, hs, hav, hc]
      · simp [api_lock_seat, hs, hav, hc, cacheSet]

/-- C2 witness: with seat 1 free and no lock present, a hold by session
A at instant 0 succeeds with `expires_in` 120 and stores expiry 120. -/
theorem C2_witness :
    api_lock_seat sampleDB emptyCache 0 1 "A" =
      (.ok 120, cacheSet emptyCache 1 "A" 0 120) ∧
    (api_lock_seat sampleDB emptyCache 0 1 "A").2 1 = some ⟨"A", 0 + 120⟩ :=
  (C2_amended_hold_behavior sampleDB emptyCache 0 1 "A" seatV
    (by decide)).2.2 (by decide) (Or.inl (by decide))

/-- C2 counterexample: session A holds seat 1 at instant 0; with no
re-hold the lock is gone at instant 130 (fixed 120-second TTL), but
after an idempotent re-hold by the same owner at instant 100 the lock is
still live at instant 130 — the re-hold extended the lifetime, refuting
the no-sliding-renewal claim. -/
theorem C2_counterexample :
    (api_lock_seat sampleDB holdOnce 100 1 "A").1 = .ok 120 ∧
    cacheGet holdOnce 130 1 = none ∧
    cacheGet holdTwice 130 1 = some "A" := by
  decide

/-- C5 (confirmed): for an existing trip, `api_get_seats` answers with
one view per seat of the trip, and a view reports the seat as offerable
(`is_available = true`) exactly when the durable flag is not sold AND no
live lock for the seat exists in the store at read time; the reported
locked flag holds exactly when a raw cache entry exists whose expiry
lies in the future, so an expired entry never marks a seat as locked. -/
theorem C5_availability_report (db : DB) (c : Cache) (now trip_id : Nat)
    (t : Trip) (ht : findTrip db trip_id = some t) :
    ∃ views, api_get_seats db c now trip_id = some views ∧
      (∀ v ∈ views, ∃ s ∈ db.seats, s.tripId = trip_id ∧ v.id = s.id ∧
        (v.is_available = true ↔
          s.is_available = true ∧ cacheGet c now s.id = none) ∧
        (v.is_locked = true ↔ ∃ e, c s.id = some e ∧ now < e.expiry)) ∧
      (∀ s ∈ db.seats, s.tripId = trip_id → ∃ v ∈ views, v.id = s.id) := by
  refine ⟨(db.seats.filter (fun s => decide (s.tripId = trip_id))).map
      (fun s => ⟨s.id, s.is_available && !(cacheGet c now s.id).isSome,
        (cacheGet c now s.id).isSome, seatFareIn db s⟩), ?_, ?_, ?_⟩
  · simp only [api_get_seats, ht, Option.map_some']
  · intro v hv
    simp only [List.mem_map, List.mem_filter, decide_eq_true_eq] at hv
    obtain ⟨s, ⟨hmem, htrip⟩, hveq⟩ := hv
    refine ⟨s, hmem, htrip, ?_, ?_, ?_⟩
    · rw [← hveq]
    · rw [← hveq]
      rcases hc : cacheGet c now s.id with _ | o <;> simp [hc]
    · rw [← hveq]
      simpa using cacheGet_isSome_iff c now s.id
  · intro s hmem htrip
    exact ⟨_, List.mem_map_of_mem _ (List.mem_filter.mpr ⟨hmem, by simp [htrip]⟩), rfl⟩

/-- C5 witness: on the one-seat database with the seat durably sold and
held by session A, the availability report exists and satisfies the
per-seat characterization. -/
theorem C5_witness :
    ∃ views, api_get_seats soldDB lockA 10 1 = some views ∧
      (∀ v ∈ views, ∃ s ∈ soldDB.seats, s.tripId = 1 ∧ v.id = s.id ∧
        (v.is_available = true ↔
          s.is_available = true ∧ cacheGet lockA 10 s.id = none) ∧
        (v.is_locked = true ↔ ∃ e, lockA s.id = some e ∧ 10 < e.expiry)) ∧
      (∀ s ∈ soldDB.seats, s.tripId = 1 → ∃ v ∈ views, v.id = s.id) :=
  C5_availability_report soldDB lockA 10 1 sampleTrip1 (by decide)

/-- C3 (confirmed): a commit attempt with a non-empty seat list on an
existing trip, where at least one requested seat currently shows no lock
owned by the calling session, is rejected with the lock-expired error
naming exactly the offending seats (those whose lock is missing or
foreign); the database and the lock store are both returned unchanged,
so nothing durable is written and every other still-valid held seat
stays held — neither sold nor released. -/
theorem C3_lock_precondition_rejection (db : DB) (c : Cache) (now : Nat)
    (sid : String) (trip_id : Nat) (seat_ids : List Nat) (bp dp : Nat)
    (cust : Customer) (ref : String) (crashAfter : Option Nat)
    (t : Trip) (ht : findTrip db trip_id = some t)
    (hne : seat_ids ≠ [])
    (offending : List Nat)
    (hoff : unlockedSeats c now sid seat_ids = offending)
    (hnonempty : offending ≠ []) :
    api_create_booking db c now sid trip_id seat_ids bp dp cust ref crashAfter
      = (.locksInvalid offending, db, c) := by
  have h1 : seat_ids.isEmpty = false := by
    cases seat_ids with
    | nil => exact absurd rfl hne
    | cons a l => rfl
  have h2 : (unlockedSeats c now sid seat_ids).isEmpty = false := by
    rw [hoff]
    cases offending with
    | nil => exact absurd rfl hnonempty
    | cons a l => rfl
  have h3 : offending.isEmpty = false := by
    cases offending with
    | nil => exact absurd rfl hnonempty
    | cons a l => rfl
  simp only [api_create_booking, h1, ht, h2, hoff, h3, Bool.false_eq_true,
    if_false]

/-- C3 witness: session A commits seats 1 and 2 on trip 1 while seat 1
is held by session B; the commit is rejected naming seat 1 and both the
database and the lock store are unchanged. -/
theorem C3_witness :
    api_create_booking sampleDB lockMix 10 "A" 1 [1, 2] 1 1 sampleCustomer
      "BKZ" none = (.locksInvalid [1], sampleDB, lockMix) :=
  C3_lock_precondition_rejection sampleDB lockMix 10 "A" 1 [1, 2] 1 1
    sampleCustomer "BKZ" none sampleTrip1 (by decide) (by decide) [1]
    (by decide) (by decide)

/-- C1 (amended): every failure `api_create_booking` produces during its
validation phase — the lock precondition check (step 1), the durable
availability re-check (step 2), the boarding-point lookup, the empty
seat-list check or the trip lookup — leaves durable state and the lock
store exactly unchanged.  A failure injected during step 3, the creation
phase, does NOT leave durable state unchanged: the creation runs under
autocommit with no enclosing transaction, so the writes already made
(the Booking row, and possibly some SeatBooking rows and flipped seats)
survive the failure. -/
theorem C1_amended_no_write_on_validation_failure (db : DB) (c : Cache)
    (now : Nat) (sid : String) (trip_id : Nat) (seat_ids : List Nat)
    (bp dp : Nat) (cust : Customer) (ref : String)
    (crashAfter : Option Nat)
    (h : validationFailure (api_create_booking db c now sid trip_id seat_ids
      bp dp cust ref crashAfter).1 = true) :
    (api_create_booking db c now sid trip_id seat_ids bp dp cust ref
      crashAfter).2 = (db, c) := by
  by_cases h1 : seat_ids.isEmpty = true
  · simp only [api_create_booking, h1, if_true]
  · have h1x : seat_ids.isEmpty = false := by
      revert h1; cases seat_ids.isEmpty <;> simp
    rcases ht : findTrip db trip_id with _ | t
    · simp only [api_create_booking, h1x, ht, Bool.false_eq_true, if_false]
    · by_cases h2 : (unlockedSeats c now sid seat_ids).isEmpty = true
      · by_cases h3 : (availableSeats db seat_ids).length = seat_ids.length
        · rcases hbp : findRouteStop db bp with _ | bstop
          · simp only [api_create_booking, h1x, ht, h2, h3,
              Bool.false_eq_true, if_false, if_true, eq_self_iff_true, hbp]
          · rcases hdp : findRouteStop db dp with _ | dstop
            · simp only [api_create_booking, h1x, ht, h2, h3,
                Bool.false_eq_true, if_false, if_true, eq_self_iff_true,
                hbp, hdp]
            · exfalso
              simp only [api_create_booking, h1x, ht, h2, h3,
                Bool.false_eq_true, if_false, if_true, eq_self_iff_true,
                hbp, hdp] at h
              rw [creationPhase_not_validation] at h
              exact Bool.false_ne_true h
        · simp only [api_create_booking, h1x, ht, h2, h3,
            Bool.false_eq_true, if_false, if_true, eq_self_iff_true,
            if_neg h3]
      · have h2x : (unlockedSeats c now sid seat_ids).isEmpty = false := by
          revert h2; cases (unlockedSeats c now sid seat_ids).isEmpty <;> simp
        simp only [api_create_booking, h1x, ht, h2x, Bool.false_eq_true,
          if_false]

/-- C1 witness: a commit rejected at the lock precondition leaves the
database and the lock store unchanged. -/
theorem C1_witness :
    validationFailure (api_create_booking sampleDB lockMix 10 "A" 1 [1, 2]
      1 1 sampleCustomer "BKZ" none).1 = true ∧
    (api_create_booking sampleDB lockMix 10 "A" 1 [1, 2] 1 1 sampleCustomer
      "BKZ" none).2 = (sampleDB, lockMix) :=
  ⟨by decide,
   C1_amended_no_write_on_validation_failure sampleDB lockMix 10 "A" 1
     [1, 2] 1 1 sampleCustomer "BKZ" none (by decide)⟩

/-- C1 counterexample: with seat 1 of trip 1 validly held by session A,
a failure injected during step 3 — after the `Booking.objects.create`
call but before the seat loop — leaves the result state with ONE new
Booking row (and no SeatBooking rows, no flipped seats): durable state
is not left unchanged, refuting the all-or-nothing claim. -/
theorem C1_counterexample :
    (api_create_booking sampleDB lockA 10 "A" 1 [1] 1 1 sampleCustomer
      "BKREF" (some 1)).1 = .crashed ∧
    ((api_create_booking sampleDB lockA 10 "A" 1 [1] 1 1 sampleCustomer
      "BKREF" (some 1)).2.1).bookings.length
      = sampleDB.bookings.length + 1 ∧
    ((api_create_booking sampleDB lockA 10 "A" 1 [1] 1 1 sampleCustomer
      "BKREF" (some 1)).2.1).seatBookings = sampleDB.seatBookings ∧
    ((api_create_booking sampleDB lockA 10 "A" 1 [1] 1 1 sampleCustomer
      "BKREF" (some 1)).2.1).seats = sampleDB.seats := by
  decide

/-- C9 (amended): the commit validates the boarding and dropping point
identifiers only for EXISTENCE as `RouteStop` rows: when the id does not
reference any `RouteStop` at all, the commit fails with the invalid-point
error and creates no booking (state unchanged); but membership of the
stop in the route of the requested trip is never checked, so an existing
stop of a different route is accepted. -/
theorem C9_amended_point_validation (db : DB) (c : Cache) (now : Nat)
    (sid : String) (trip_id : Nat) (seat_ids : List Nat) (bp dp : Nat)
    (cust : Customer) (ref : String) (crashAfter : Option Nat) (t : Trip)
    (ht : findTrip db trip_id = some t)
    (hne : seat_ids ≠ [])
    (hlocks : (unlockedSeats c now sid seat_ids).isEmpty = true)
    (hlen : (availableSeats db seat_ids).length = seat_ids.length)
    (hpt : findRouteStop db bp = none ∨ findRouteStop db dp = none) :
    api_create_booking db c now sid trip_id seat_ids bp dp cust ref
      crashAfter = (.invalidPoint, db, c) := by
  have h1 : seat_ids.isEmpty = false := by
    cases seat_ids with
    | nil => exact absurd rfl hne
    | cons a l => rfl
  rcases hpt with hbp | hdp
  · simp only [api_create_booking, h1, ht, hlocks, hlen,
      Bool.false_eq_true, if_false, if_true, eq_self_iff_true, hbp]
  · rcases hbp2 : findRouteStop db bp with _ | bstop <;>
      simp only [api_create_booking, h1, ht, hlocks, hlen,
        Bool.false_eq_true, if_false, if_true, eq_self_iff_true, hbp2, hdp]

/-- C9 witness: a boarding-point id referencing no `RouteStop` row is
rejected with the invalid-point error and nothing is written. -/
theorem C9_witness :
    api_create_booking sampleDB lockA 10 "A" 1 [1] 99 99 sampleCustomer
      "BKN" none = (.invalidPoint, sampleDB, lockA) :=
  C9_amended_point_validation sampleDB lockA 10 "A" 1 [1] 99 99
    sampleCustomer "BKN" none sampleTrip1 (by decide) (by decide)
    (by decide) (by decide) (Or.inl (by decide))

/-- C9 counterexample: route stop 9 exists but belongs to route 2 while
trip 1 runs on route 1; a commit of trip 1 naming stop 9 as both
boarding and dropping point nevertheless succeeds and creates a booking,
refuting the claim that such a commit fails with the invalid-point
error. -/
theorem C9_counterexample :
    findRouteStop sampleDB 9 = some stop9 ∧
    sampleTrip1.routeId = 1 ∧ stop9.routeId = 2 ∧
    (api_create_booking sampleDB lockA 10 "A" 1 [1] 9 9 sampleCustomer
      "BKY" none).1 = .ok "BKY" 100 ∧
    ((api_create_booking sampleDB lockA 10 "A" 1 [1] 9 9 sampleCustomer
      "BKY" none).2.1).bookings.length = 1 := by
  decide

/-- C10 (confirmed): the commit fetches seats only by id and
availability — `availableSeats` carries no trip filter — so a commit
naming trip `trip_id` whose requested, locked and available seats all
belong to a DIFFERENT trip `tripOther` succeeds: it creates a Booking
row referencing `trip_id` whose SeatBooking rows point at the seats of
`tripOther`, and flips the availability flags of exactly those seats. -/
theorem C10_no_trip_membership_check (db : DB) (c : Cache) (now : Nat)
    (sid : String) (trip_id tripOther : Nat) (seat_ids : List Nat)
    (bp dp : Nat) (cust : Customer) (ref : String) (t : Trip)
    (bstop dstop : RouteStop) (seatsF : List Seat)
    (ht : findTrip db trip_id = some t)
    (hne : seat_ids ≠ [])
    (hlocks : (unlockedSeats c now sid seat_ids).isEmpty = true)
    (hseats : availableSeats db seat_ids = seatsF)
    (hlen : seatsF.length = seat_ids.length)
    (hbp : findRouteStop db bp = some bstop)
    (hdp : findRouteStop db dp = some dstop)
    (hother : ∀ s ∈ seatsF, s.tripId = tripOther)
    (hdiff : tripOther ≠ trip_id) :
    api_create_booking db c now sid trip_id seat_ids bp dp cust ref none =
      (.ok ref ((seatsF.map (seatFareIn db)).sum),
       { db with
         bookings := db.bookings ++
           [⟨freshBookingId db, ref, trip_id, cust, bstop.boarding_pointId,
             dstop.boarding_pointId, (seatsF.map (seatFareIn db)).sum,
             "pending"⟩],
         seatBookings := db.seatBookings ++
           seatsF.map (fun s => ⟨freshBookingId db, s.id, seatFareIn db s⟩),
         seats := flipSeats db.seats (seatsF.map (fun s => s.id)),
         payments := db.payments ++
           [⟨freshBookingId db, "TXN" ++ ref,
             (seatsF.map (seatFareIn db)).sum, "initiated"⟩] },
       delAll c (seatsF.map (fun s => s.id))) ∧
    (∀ s ∈ seatsF, s.tripId ≠ trip_id) :=
  ⟨create_booking_success_state db c now sid trip_id seat_ids bp dp cust
     ref t bstop dstop seatsF ht hne hlocks hseats hlen hbp hdp,
   fun s hs => by rw [hother s hs]; exact hdiff⟩

/-- C10 witness: session A committing trip 1 with seat 2 — an available
seat of trip 2 that A holds — succeeds: the booking references trip 1,
its single SeatBooking row points at seat 2 of trip 2 (fare 90 from the
trip 2 price table), and seat 2 is flipped. -/
theorem C10_witness :
    api_create_booking sampleDB lockA2 10 "A" 1 [2] 1 1 sampleCustomer
      "BKX" none =
      (.ok "BKX" (([seatN2].map (seatFareIn sampleDB)).sum),
       { sampleDB with
         bookings := sampleDB.bookings ++
           [⟨freshBookingId sampleDB, "BKX", 1, sampleCustomer,
             stop1.boarding_pointId, stop1.boarding_pointId,
             (([seatN2]).map (seatFareIn sampleDB)).sum, "pending"⟩],
         seatBookings := sampleDB.seatBookings ++
           [seatN2].map (fun s =>
             ⟨freshBookingId sampleDB, s.id, seatFareIn sampleDB s⟩),
         seats := flipSeats sampleDB.seats ([seatN2].map (fun s => s.id)),
         payments := sampleDB.payments ++
           [⟨freshBookingId sampleDB, "TXN" ++ "BKX",
             (([seatN2]).map (seatFareIn sampleDB)).sum, "initiated"⟩] },
       delAll lockA2 ([seatN2].map (fun s => s.id))) ∧
    (∀ s ∈ [seatN2], s.tripId ≠ 1) :=
  C10_no_trip_membership_check sampleDB lockA2 10 "A" 1 2 [2] 1 1
    sampleCustomer "BKX" sampleTrip1 stop1 stop1 [seatN2] (by decide)
    (by decide) (by decide) (by decide) (by decide) (by decide) (by decide)
    (by decide) (by decide)

theorem find?_booking_update (l : List Booking) (bid i : Nat) :
    (l.map (fun bb : Booking =>
      if bb.id = bid then { bb with status := "cancelled" } else bb)).find?
        (fun bb => bb.id = i) =
      (l.find? (fun bb => bb.id = i)).map
        (fun bb : Booking =>
          if bb.id = bid then { bb with status := "cancelled" } else bb) := by
  induction l with
  | nil => rfl
  | cons a l ih =>
    by_cases hb : a.id = bid <;> by_cases hi : a.id = i
    · have hbi : bid = i := by rw [← hb, hi]
      simp [List.find?_cons, hb, hi, hbi, ih]
    · have hbi : ¬ bid = i := by rw [← hb]; exact hi
      simp [List.find?_cons, hb, hi, hbi, ih]
    · have hbi : ¬ i = bid := fun h => hb (by rw [hi, h])
      simp [List.find?_cons, hb, hi, hbi, ih]
    · simp [List.find?_cons, hb, hi, ih]

/-- C7 (amended): `cancel_booking` on a POST is a compensating action:
on a booking whose status is neither `cancelled` nor `completed` it sets
the status to `cancelled`, returns every seat confirmed by one of its
SeatBooking rows to available, and leaves seats without such a row
untouched; cancelling again afterwards is a no-op returning the same
redirect (cancel after cancel equals cancel).  A booking that is already
`cancelled` OR already `completed` is silently ignored with exactly the
same redirect response — the completed case produces NO distinct
not-cancellable signal. -/
theorem C7_amended_cancel_booking (db : DB) (bid : Nat) (b : Booking)
    (hb : findBooking db bid = some b) :
    ((b.status = "cancelled" ∨ b.status = "completed") →
      cancel_booking db bid true = (.redirect bid, db)) ∧
    (b.status ≠ "cancelled" → b.status ≠ "completed" →
      (cancel_booking db bid true).1 = .redirect bid ∧
      (∀ b2 ∈ (cancel_booking db bid true).2.bookings,
        b2.id = bid → b2.status = "cancelled") ∧
      (∀ s ∈ (cancel_booking db bid true).2.seats,
        (∃ sb ∈ db.seatBookings, sb.bookingId = bid ∧ sb.seatId = s.id) →
        s.is_available = true) ∧
      (∀ s ∈ db.seats,
        (¬ ∃ sb ∈ db.seatBookings, sb.bookingId = bid ∧ sb.seatId = s.id) →
        s ∈ (cancel_booking db bid true).2.seats) ∧
      cancel_booking (cancel_booking db bid true).2 bid true =
        (.redirect bid, (cancel_booking db bid true).2)) := by
  have hbid : b.id = bid := by simpa using List.find?_some hb
  constructor
  · intro hst
    simp only [cancel_booking, hb]
    rw [if_neg (by simp), if_pos hst]
  · intro h1 h2
    have hcond : ¬ (b.status = "cancelled" ∨ b.status = "completed") := by
      rintro (h | h)
      · exact h1 h
      · exact h2 h
    have hres : cancel_booking db bid true =
        (CancelResult.redirect bid,
         { db with
           bookings := db.bookings.map (fun bb : Booking =>
             if bb.id = bid then { bb with status := "cancelled" } else bb),
           seats := db.seats.map (fun s : Seat =>
             if (db.seatBookings.filter
               (fun sb : SeatBooking => decide (sb.bookingId = bid))).any
                 (fun sb : SeatBooking => decide (sb.seatId = s.id)) then
               { s with is_available := true } else s) }) := by
      simp only [cancel_booking, hb]
      rw [if_neg (by simp), if_neg hcond]
    refine ⟨by rw [hres], ?_, ?_, ?_, ?_⟩
    · rw [hres]
      intro b2 hmem hid
      simp only [List.mem_map] at hmem
      obtain ⟨bb, hbb, rfl⟩ := hmem
      by_cases hbbid : bb.id = bid
      · simp [hbbid]
      · simp only [hbbid, if_false] at hid
    · rw [hres]
      intro s hmem hex
      simp only [List.mem_map] at hmem
      obtain ⟨s0, hs0, rfl⟩ := hmem
      by_cases hany : (db.seatBookings.filter
          (fun sb : SeatBooking => decide (sb.bookingId = bid))).any
            (fun sb : SeatBooking => decide (sb.seatId = s0.id)) = true
      · simp [hany]
      · exfalso
        apply hany
        simp only [if_neg hany] at hex
        obtain ⟨sb, hsb, hsbb, hsbs⟩ := hex
        rw [List.any_eq_true]
        exact ⟨sb, List.mem_filter.mpr ⟨hsb, by simp [hsbb]⟩, by simp [hsbs]⟩
    · rw [hres]
      intro s hs hnex
      have hany : (db.seatBookings.filter
          (fun sb : SeatBooking => decide (sb.bookingId = bid))).any
            (fun sb : SeatBooking => decide (sb.seatId = s.id)) = false := by
        rw [List.any_eq_false]
        intro sb hsb
        have := List.mem_filter.mp hsb
        simp only [decide_eq_true_eq] at this ⊢
        exact fun heq => hnex ⟨sb, this.1, this.2, heq⟩
      simp only [List.mem_map]
      exact ⟨s, hs, by rw [hany]; simp⟩
    · rw [hres]
      have hfind2 : findBooking
          { db with
            bookings := db.bookings.map (fun bb : Booking =>
              if bb.id = bid then { bb with status := "cancelled" } else bb),
            seats := db.seats.map (fun s : Seat =>
              if (db.seatBookings.filter
                (fun sb : SeatBooking => decide (sb.bookingId = bid))).any
                  (fun sb : SeatBooking => decide (sb.seatId = s.id)) then
                { s with is_available := true } else s) } bid =
          some { b with status := "cancelled" } := by
        show (db.bookings.map (fun bb : Booking =>
          if bb.id = bid then { bb with status := "cancelled" } else bb)).find?
            (fun bb => bb.id = bid) = _
        rw [find?_booking_update]
        have : db.bookings.find? (fun bb => bb.id = bid) = some b := hb
        rw [this]
        simp [hbid]
      simp only [cancel_booking, hfind2]
      split <;> rfl

/-- C7 witness: cancelling pending booking 1 of the one-seat database
redirects, marks the booking cancelled, frees seat 1, and a second
cancellation is a no-op with the same redirect. -/
theorem C7_witness :
    ((cancel_booking soldDB 1 true).1 = .redirect 1 ∧
      (∀ b2 ∈ (cancel_booking soldDB 1 true).2.bookings,
        b2.id = 1 → b2.status = "cancelled") ∧
      (∀ s ∈ (cancel_booking soldDB 1 true).2.seats,
        (∃ sb ∈ soldDB.seatBookings, sb.bookingId = 1 ∧ sb.seatId = s.id) →
        s.is_available = true) ∧
      (∀ s ∈ soldDB.seats,
        (¬ ∃ sb ∈ soldDB.seatBookings, sb.bookingId = 1 ∧ sb.seatId = s.id) →
        s ∈ (cancel_booking soldDB 1 true).2.seats) ∧
      cancel_booking (cancel_booking soldDB 1 true).2 1 true =
        (.redirect 1, (cancel_booking soldDB 1 true).2)) ∧
    cancel_booking cancelledDB 1 true = (.redirect 1, cancelledDB) :=
  ⟨(C7_amended_cancel_booking soldDB 1 pendingBooking (by decide)).2
      (by decide) (by decide),
   (C7_amended_cancel_booking cancelledDB 1 cancelledBooking (by decide)).1
      (Or.inl (by decide))⟩

/-- C7 counterexample: cancelling the COMPLETED booking 1 silently does
nothing and answers with exactly the same redirect as the no-op success
on an already-cancelled booking — there is no distinct not-cancellable
rejection, refuting the claim that a completed booking is rejected with
a clear signal rather than silently ignored. -/
theorem C7_counterexample :
    completedBooking.status = "completed" ∧
    cancel_booking completedDB 1 true = (.redirect 1, completedDB) ∧
    cancel_booking cancelledDB 1 true = (.redirect 1, cancelledDB) ∧
    (cancel_booking completedDB 1 true).1 =
      (cancel_booking cancelledDB 1 true).1 := by
  decide

theorem le_foldr_max (l : List Nat) (x : Nat) (hx : x ∈ l) :
    x ≤ l.foldr max 0 := by
  induction l with
  | nil => cases hx
  | cons a t ih =>
    rcases List.mem_cons.mp hx with rfl | ht
    · exact le_max_left _ _
    · exact le_trans (ih ht) (le_max_right _ _)

theorem freshBookingId_not_mem (db : DB) :
    ∀ b ∈ db.bookings, b.id ≠ freshBookingId db := by
  intro b hb
  have : b.id ≤ (db.bookings.map (fun b => b.id)).foldr max 0 :=
    le_foldr_max _ _ (List.mem_map_of_mem _ hb)
  unfold freshBookingId
  omega

theorem isActiveSB_append (db dbN : DB) (nb : Booking)
    (hbk : dbN.bookings = db.bookings ++ [nb]) (sb : SeatBooking)
    (hfk : ∃ b ∈ db.bookings, b.id = sb.bookingId) :
    isActiveSB dbN sb = isActiveSB db sb := by
  unfold isActiveSB findBooking
  rw [hbk, List.find?_append]
  rcases hf : db.bookings.find? (fun b => b.id = sb.bookingId) with _ | bfound
  · obtain ⟨b, hbmem, hbid⟩ := hfk
    have := List.find?_eq_none.mp hf b hbmem
    simp [hbid] at this
  · rw [hf]
    rfl

theorem isActiveSB_new (db dbN : DB) (nb : Booking)
    (hbk : dbN.bookings = db.bookings ++ [nb])
    (hfresh : ∀ b ∈ db.bookings, b.id ≠ nb.id)
    (sb : SeatBooking) (hsb : sb.bookingId = nb.id) :
    isActiveSB dbN sb = decide (nb.status ≠ "cancelled") := by
  unfold isActiveSB findBooking
  rw [hbk, List.find?_append]
  have hf : db.bookings.find? (fun b => b.id = sb.bookingId) = none := by
    rw [List.find?_eq_none]
    intro b hb
    simp only [decide_eq_true_eq, hsb]
    exact hfresh b hb
  rw [hf]
  simp [List.find?, hsb]

theorem activeCount_append (db dbN : DB) (nb : Booking)
    (newSBs : List SeatBooking) (x : Nat)
    (hbk : dbN.bookings = db.bookings ++ [nb])
    (hsb : dbN.seatBookings = db.seatBookings ++ newSBs)
    (hfk : ∀ sb ∈ db.seatBookings, ∃ b ∈ db.bookings, b.id = sb.bookingId) :
    activeCount dbN x =
      activeCount db x +
      (newSBs.filter
        (fun sb => decide (sb.seatId = x) && isActiveSB dbN sb)).length := by
  unfold activeCount
  rw [hsb, List.filter_append, List.length_append]
  congr 2
  apply List.filter_congr
  intro sb hsbm
  rw [isActiveSB_append db dbN nb hbk sb (hfk sb hsbm)]

theorem filter_id_singleton (l : List Seat)
    (hn : (l.map (fun s => s.id)).Nodup) (s0 : Seat) (hs : s0 ∈ l) :
    l.filter (fun s => decide (s.id = s0.id)) = [s0] := by
  induction l with
  | nil => cases hs
  | cons a t ih =>
    simp only [List.map_cons, List.nodup_cons] at hn
    rcases List.mem_cons.mp hs with rfl | hst
    · rw [List.filter_cons_of_pos (by simp)]
      have hnil : t.filter (fun s => decide (s.id = s0.id)) = [] := by
        rw [List.filter_eq_nil_iff]
        intro s hstm
        simp only [decide_eq_true_eq]
        intro heq
        exact hn.1 (by rw [← heq]; exact List.mem_map_of_mem _ hstm)
      rw [hnil]
    · have hne : ¬ (a.id = s0.id) := by
        intro heq
        exact hn.1 (heq ▸ List.mem_map_of_mem (fun s => s.id) hst)
      rw [List.filter_cons_of_neg (by simp [hne])]
      exact ih hn.2 hst

theorem seatInv_iff (db : DB) : seatInv db = true ↔
    ∀ s ∈ db.seats,
      activeCount db s.id = if s.is_available then 0 else 1 := by
  simp [seatInv]

theorem isActiveSB_cancel (db dbN : DB) (bid : Nat) (b : Booking)
    (hb : findBooking db bid = some b)
    (hbk : dbN.bookings = db.bookings.map (fun bb : Booking =>
      if bb.id = bid then { bb with status := "cancelled" } else bb))
    (sb : SeatBooking) :
    isActiveSB dbN sb =
      (decide (sb.bookingId ≠ bid) && isActiveSB db sb) := by
  unfold isActiveSB findBooking
  rw [hbk, find?_booking_update]
  by_cases hsbid : sb.bookingId = bid
  · rw [hsbid]
    have hfb : db.bookings.find? (fun bb => bb.id = bid) = some b := hb
    rw [hfb]
    have hbid : b.id = bid := by simpa using List.find?_some hb
    simp [hbid]
  · rcases hf : db.bookings.find? (fun bb => bb.id = sb.bookingId)
      with _ | bb
    · rw [hf]
      simp [hsbid]
    · have hbbid : bb.id = sb.bookingId := by
        simpa using List.find?_some hf
      have hnb : ¬ bb.id = bid := by rw [hbbid]; exact hsbid
      rw [hf]
      simp [hnb, hsbid]

/-- Abstract form of invariant preservation by the commit write set. -/
theorem seatInv_commit_abstract (db dbN : DB) (nb : Booking)
    (seatsF : List Seat)
    (hndseats : (db.seats.map (fun s => s.id)).Nodup)
    (hfk : ∀ sb ∈ db.seatBookings, ∃ b ∈ db.bookings, b.id = sb.bookingId)
    (hfresh : ∀ b ∈ db.bookings, b.id ≠ nb.id)
    (hstatus : nb.status = "pending")
    (hseatsF : ∀ s ∈ seatsF, s ∈ db.seats ∧ s.is_available = true)
    (hndF : (seatsF.map (fun s => s.id)).Nodup)
    (hbk : dbN.bookings = db.bookings ++ [nb])
    (hsbN : dbN.seatBookings = db.seatBookings ++
      seatsF.map (fun s => ⟨nb.id, s.id, seatFareIn db s⟩))
    (hseatsN : dbN.seats = flipSeats db.seats (seatsF.map (fun s => s.id)))
    (hinv : seatInv db = true) :
    seatInv dbN = true := by
  have hACT : ∀ x, activeCount dbN x = activeCount db x +
      (seatsF.filter (fun s => decide (s.id = x))).length := by
    intro x
    rw [activeCount_append db dbN nb _ x hbk hsbN hfk]
    congr 1
    rw [List.filter_map, List.length_map]
    congr 1
    apply List.filter_congr
    intro s hsF
    show (decide ((⟨nb.id, s.id, seatFareIn db s⟩ : SeatBooking).seatId = x)
      && isActiveSB dbN ⟨nb.id, s.id, seatFareIn db s⟩) = decide (s.id = x)
    rw [isActiveSB_new db dbN nb hbk hfresh _ rfl, hstatus]
    simp
  rw [seatInv_iff]
  intro sv hsv
  rw [hseatsN] at hsv
  unfold flipSeats at hsv
  obtain ⟨s0, hs0, rfl⟩ := List.mem_map.mp hsv
  by_cases hin : s0.id ∈ seatsF.map (fun s => s.id)
  · obtain ⟨sF, hsF, hsFid⟩ := List.mem_map.mp hin
    have hs0F : s0 = sF :=
      List.inj_on_of_nodup_map hndseats hs0 (hseatsF sF hsF).1 hsFid.symm
    have hs0mem : s0 ∈ seatsF := hs0F ▸ hsF
    have hs0av : s0.is_available = true := by
      rw [hs0F]; exact (hseatsF sF hsF).2
    have hinv0 := (seatInv_iff db).mp hinv s0 hs0
    rw [hs0av, if_pos rfl] at hinv0
    simp only [hin, if_true]
    rw [hACT]
    rw [filter_id_singleton seatsF hndF s0 hs0mem]
    simp [hinv0]
  · simp only [hin, if_false]
    have hinv0 := (seatInv_iff db).mp hinv s0 hs0
    rw [hACT]
    have hnil : seatsF.filter (fun s => decide (s.id = s0.id)) = [] := by
      rw [List.filter_eq_nil_iff]
      intro sF hsF
      simp only [decide_eq_true_eq]
      intro heq
      exact hin (heq ▸ List.mem_map_of_mem (fun s => s.id) hsF)
    rw [hnil]
    simpa using hinv0

/-- Invariant preservation by `cancel_booking`, any input. -/
theorem seatInv_cancel_booking (db : DB) (bid : Nat) (isPost : Bool)
    (hinv : seatInv db = true) :
    seatInv (cancel_booking db bid isPost).2 = true := by
  rcases hb : findBooking db bid with _ | b
  · simpa only [cancel_booking, hb] using hinv
  · cases isPost with
    | false => simpa only [cancel_booking, hb, if_pos rfl] using hinv
    | true =>
      by_cases hst : b.status = "cancelled" ∨ b.status = "completed"
      · have : cancel_booking db bid true = (.redirect bid, db) := by
          simp only [cancel_booking, hb]
          rw [if_neg (by simp), if_pos hst]
        rw [this]
        exact hinv
      · have hbact : b.status ≠ "cancelled" := fun h => hst (Or.inl h)
        have hres : (cancel_booking db bid true).2 =
            { db with
              bookings := db.bookings.map (fun bb : Booking =>
                if bb.id = bid then { bb with status := "cancelled" }
                else bb),
              seats := db.seats.map (fun s : Seat =>
                if (db.seatBookings.filter
                  (fun sb : SeatBooking => decide (sb.bookingId = bid))).any
                    (fun sb : SeatBooking => decide (sb.seatId = s.id)) then
                  { s with is_available := true } else s) } := by
          simp only [cancel_booking, hb]
          rw [if_neg (by simp), if_neg hst]
        rw [hres]
        have hACT : ∀ x, activeCount
            { db with
              bookings := db.bookings.map (fun bb : Booking =>
                if bb.id = bid then { bb with status := "cancelled" }
                else bb),
              seats := db.seats.map (fun s : Seat =>
                if (db.seatBookings.filter
                  (fun sb : SeatBooking => decide (sb.bookingId = bid))).any
                    (fun sb : SeatBooking => decide (sb.seatId = s.id)) then
                  { s with is_available := true } else s) } x =
            (db.seatBookings.filter (fun sb => decide (sb.seatId = x) &&
              (decide (sb.bookingId ≠ bid) && isActiveSB db sb))).length := by
          intro x
          unfold activeCount
          apply congrArg List.length
          apply List.filter_congr
          intro sb hsbm
          rw [isActiveSB_cancel db _ bid b hb rfl sb]
        rw [seatInv_iff]
        intro sv hsv
        obtain ⟨s0, hs0, rfl⟩ := List.mem_map.mp hsv
        have hinv0 := (seatInv_iff db).mp hinv s0 hs0
        by_cases hany : (db.seatBookings.filter
            (fun sb : SeatBooking => decide (sb.bookingId = bid))).any
              (fun sb : SeatBooking => decide (sb.seatId = s0.id)) = true
        · obtain ⟨sbW, hsbWf, hsbWs⟩ := List.any_eq_true.mp hany
          have hsbWmem := (List.mem_filter.mp hsbWf).1
          have hsbWbid : sbW.bookingId = bid := by
            simpa using (List.mem_filter.mp hsbWf).2
          have hsbWsid : sbW.seatId = s0.id := by simpa using hsbWs
          simp only [hany, if_true]
          rw [hACT]
          rw [List.length_eq_zero, List.filter_eq_nil_iff]
          intro sb hsbm
          simp only [Bool.and_eq_true, decide_eq_true_eq]
          rintro ⟨hsid, hnbid, hact⟩
          have hWact : isActiveSB db sbW = true := by
            unfold isActiveSB
            rw [hsbWbid, hb]
            simp [hbact]
          by_cases hav : s0.is_available = true
          · rw [hav, if_pos rfl] at hinv0
            have hnil := List.length_eq_zero.mp hinv0
            have : sbW ∈ db.seatBookings.filter
                (fun sb2 => decide (sb2.seatId = s0.id) &&
                  isActiveSB db sb2) :=
              List.mem_filter.mpr ⟨hsbWmem, by simp [hsbWsid, hWact]⟩
            rw [hnil] at this
            cases this
          · have hav' : s0.is_available = false := by
              revert hav; cases s0.is_available <;> simp
            rw [hav', if_neg (by simp)] at hinv0
            obtain ⟨u, hu⟩ := List.length_eq_one.mp hinv0
            have hWin : sbW ∈ db.seatBookings.filter
                (fun sb2 => decide (sb2.seatId = s0.id) &&
                  isActiveSB db sb2) :=
              List.mem_filter.mpr ⟨hsbWmem, by simp [hsbWsid, hWact]⟩
            have hsbin : sb ∈ db.seatBookings.filter
                (fun sb2 => decide (sb2.seatId = s0.id) &&
                  isActiveSB db sb2) :=
              List.mem_filter.mpr ⟨hsbm, by simp [hsid, hact]⟩
            rw [hu] at hWin hsbin
            have h1 : sbW = u := by simpa using hWin
            have h2 : sb = u := by simpa using hsbin
            apply hnbid
            rw [h2, ← h1, hsbWbid]
        · have hanyf : (db.seatBookings.filter
              (fun sb : SeatBooking => decide (sb.bookingId = bid))).any
                (fun sb : SeatBooking => decide (sb.seatId = s0.id)) = false := by
            revert hany
            cases (db.seatBookings.filter
              (fun sb : SeatBooking => decide (sb.bookingId = bid))).any
                (fun sb : SeatBooking => decide (sb.seatId = s0.id)) <;> simp
          simp only [hanyf, Bool.false_eq_true, if_false]
          rw [hACT]
          rw [← hinv0]
          unfold activeCount
          apply congrArg List.length
          apply List.filter_congr
          intro sb hsbm
          by_cases hsid : sb.seatId = s0.id
          · have hnbid : ¬ sb.bookingId = bid := by
              intro hbidq
              have := List.any_eq_false.mp hanyf sb
                (List.mem_filter.mpr ⟨hsbm, by simp [hbidq]⟩)
              simp [hsid] at this
            simp [hsid, hnbid]
          · simp [hsid]

/-- C4 (amended): the invariant, in its inductive strengthening — a seat
has exactly one SeatBooking under a non-cancelled booking when its
durable flag is sold, and none when it is available — is preserved by
every completed commit (on a referentially well-formed database) and by
every booking cancellation.  Trip cancellation does NOT preserve it (see
the counterexample): it cancels the bookings of the trip without
returning their seats to available. -/
theorem C4_amended_invariant_preservation :
    (∀ (db : DB) (c : Cache) (now : Nat) (sid : String) (trip_id : Nat)
        (seat_ids : List Nat) (bp dp : Nat) (cust : Customer) (ref : String)
        (t : Trip) (bstop dstop : RouteStop) (seatsF : List Seat),
      wfDB db → seatInv db = true →
      findTrip db trip_id = some t → seat_ids ≠ [] →
      (unlockedSeats c now sid seat_ids).isEmpty = true →
      availableSeats db seat_ids = seatsF →
      seatsF.length = seat_ids.length →
      findRouteStop db bp = some bstop →
      findRouteStop db dp = some dstop →
      seatInv (api_create_booking db c now sid trip_id seat_ids bp dp cust
        ref none).2.1 = true) ∧
    (∀ (db : DB) (bid : Nat) (isPost : Bool), seatInv db = true →
      seatInv (cancel_booking db bid isPost).2 = true) := by
  constructor
  · intro db c now sid trip_id seat_ids bp dp cust ref t bstop dstop seatsF
      hwf hinv ht hne hlocks hseats hlen hbp hdp
    rw [create_booking_success_state db c now sid trip_id seat_ids bp dp
      cust ref t bstop dstop seatsF ht hne hlocks hseats hlen hbp hdp]
    obtain ⟨hnds, hndb, hfk⟩ := hwf
    have hsub : List.Sublist seatsF db.seats := by
      rw [← hseats]; exact List.filter_sublist _
    apply seatInv_commit_abstract db _
      ⟨freshBookingId db, ref, trip_id, cust, bstop.boarding_pointId,
        dstop.boarding_pointId, (seatsF.map (seatFareIn db)).sum, "pending"⟩
      seatsF hnds hfk
    · exact freshBookingId_not_mem db
    · rfl
    · intro s hs
      rw [← hseats] at hs
      have hm := List.mem_filter.mp hs
      refine ⟨hm.1, ?_⟩
      have h2 := hm.2
      simp only [decide_eq_true_eq] at h2
      exact h2.2
    · exact hnds.sublist (hsub.map (fun s => s.id))
    · rfl
    · rfl
    · rfl
    · exact hinv
  · exact seatInv_cancel_booking

/-- C4 witness: committing seat 1 of the sample database (well-formed,
invariant holding, seat held by session A) preserves the invariant, and
cancelling the pending booking of the one-sold-seat database preserves
it as well. -/
theorem C4_witness :
    seatInv (api_create_booking sampleDB lockA 10 "A" 1 [1] 1 1
      sampleCustomer "BKREF" none).2.1 = true ∧
    seatInv (cancel_booking soldDB 1 true).2 = true :=
  ⟨C4_amended_invariant_preservation.1 sampleDB lockA 10 "A" 1 [1] 1 1
      sampleCustomer "BKREF" sampleTrip1 stop1 stop1 [seatV] (by decide)
      (by decide) (by decide) (by decide) (by decide) (by decide)
      (by decide) (by decide) (by decide),
   C4_amended_invariant_preservation.2 soldDB 1 true (by decide)⟩

/-- C4 counterexample: in the one-seat database the invariant holds
(seat 1 sold with exactly one confirming SeatBooking under the pending
booking); cancelling the TRIP sets the booking to cancelled but leaves
seat 1 flagged sold, so the sold seat has zero confirming SeatBooking
rows afterwards — the invariant (in the exact form the claim states it)
is violated by trip cancellation. -/
theorem C4_counterexample :
    seatInvWeak soldDB = true ∧ seatInv soldDB = true ∧
    (cancel_trip soldDB 1).1 = .done 1 ∧
    (∀ s ∈ (cancel_trip soldDB 1).2.seats, s.is_available = false) ∧
    seatInvWeak (cancel_trip soldDB 1).2 = false ∧
    seatInv (cancel_trip soldDB 1).2 = false := by
  decide
